import Mathlib

/-!
# Verification of the wristband-hono-auth authentication SDK

Shallow embedding of the SDK's data model and operations, with theorems
settling the specification claims about them.

The repository sources provide `wristband-api-client.ts` (the HTTP client
configuration), the `WristbandAuth` interface, and the login test suite.
The crypto codec, PKCE generator, tenant resolver and the
login/callback/refresh orchestrators of `auth-service.ts`/`utils.ts` are
not part of the provided sources; those components are modelled here
directly from the specification (sections 4.1-4.7), as indicated on each
definition.
-/

/-! ## Byte-level serialization of LoginState

Modelled from the spec: LoginState (section 3) is "a CSRF state token, a
PKCE code verifier, the redirect URI used, an optional caller-supplied
return URL, an optional opaque custom-state payload, the resolved tenant
domain name", serialized before encryption.  Bytes are modelled as `Nat`
tokens; a string field is length-prefixed so the encoding is injective. -/

structure LoginState where
  state : String
  codeVerifier : String
  redirectUri : String
  returnUrl : Option String
  customState : Option String
  tenantDomainName : String
deriving DecidableEq, Repr

/-- Length-prefixed encoding of one string field. -/
def encStr (s : String) : List Nat :=
  s.data.length :: s.data.map Char.toNat

/-- Encoding of an optional string field (tag byte 0 / 1). -/
def encOpt : Option String → List Nat
  | none => [0]
  | some s => 1 :: encStr s

/-- Serialized form of a LoginState: its six fields in order. -/
def serializeLoginState (ls : LoginState) : List Nat :=
  encStr ls.state ++ encStr ls.codeVerifier ++ encStr ls.redirectUri ++
    encOpt ls.returnUrl ++ encOpt ls.customState ++ encStr ls.tenantDomainName

/-- Parse one length-prefixed string field, returning the remainder. -/
def parseStr : List Nat → Option (String × List Nat)
  | [] => none
  | n :: rest =>
    if n ≤ rest.length then
      some (String.mk ((rest.take n).map Char.ofNat), rest.drop n)
    else none

/-- Parse one optional string field, returning the remainder. -/
def parseOpt : List Nat → Option (Option String × List Nat)
  | 0 :: rest => some (none, rest)
  | 1 :: rest => (parseStr rest).map (fun p => (some p.1, p.2))
  | _ => none

/-- Deserialize a LoginState, requiring the input to be fully consumed. -/
def deserializeLoginState (bs : List Nat) : Option LoginState := do
  let (st, r1) ← parseStr bs
  let (cv, r2) ← parseStr r1
  let (ru, r3) ← parseStr r2
  let (retUrl, r4) ← parseOpt r3
  let (cs, r5) ← parseOpt r4
  let (td, r6) ← parseStr r5
  if r6 = [] then some ⟨st, cv, ru, retUrl, cs, td⟩ else none

/-! ## Crypto codec (spec 4.1)

Modelled from the spec: `utils.ts`'s `encryptLoginState`/`decryptLoginState`
are not in the provided sources.  Section 4.1 requires an
authenticated-encryption scheme with a fresh random nonce per call embedded
in the output, and fail-closed decryption.  The scheme is modelled as its
ideal functionality at the byte level: the output carries a body
(nonce + serialized plaintext) and an authentication tag binding the secret
to the body; decryption re-derives the tag and fails on any mismatch.
Fresh randomness is an explicit `nonce` argument. -/

def encryptLoginState (ls : LoginState) (secret : String) (nonce : Nat) : List Nat :=
  let body := nonce :: serializeLoginState ls
  body.length :: (body ++ (encStr secret ++ body))

def decryptLoginState (c : List Nat) (secret : String) : Option LoginState :=
  match c with
  | [] => none
  | n :: rest =>
    let body := rest.take n
    let tag := rest.drop n
    if body.length = n ∧ tag = encStr secret ++ body then
      match body with
      | [] => none
      | _nonce :: ser => deserializeLoginState ser
    else none

/-- Flip bit `k` of the byte at position `i` of a ciphertext. -/
def flipBit (c : List Nat) (i k : Nat) : List Nat :=
  c.set i (c.getD i 0 ^^^ 2 ^ k)

/-! ## PKCE / state generator (spec 4.2)

Modelled from the spec: the generator in `utils.ts` is not in the provided
sources.  Section 4.2: a CSRF state token and a PKCE code verifier are
URL-safe random strings (modelled as explicit randomness inputs), and the
code challenge is "the URL-safe-base64 encoding of the SHA-256 digest of
the code verifier, paired with the method identifier S256".  SHA-256 and
URL-safe base64 are implemented below in full (FIPS 180-4 / RFC 4648). -/

def w32 (x : Nat) : Nat := x % 4294967296

def rotr32 (n x : Nat) : Nat := w32 ((x >>> n) ||| (x <<< (32 - n)))

def sha256K : List Nat :=
  [1116352408, 1899447441, 3049323471, 3921009573,
   961987163, 1508970993, 2453635748, 2870763221,
   3624381080, 310598401, 607225278, 1426881987,
   1925078388, 2162078206, 2614888103, 3248222580,
   3835390401, 4022224774, 264347078, 604807628,
   770255983, 1249150122, 1555081692, 1996064986,
   2554220882, 2821834349, 2952996808, 3210313671,
   3336571891, 3584528711, 113926993, 338241895,
   666307205, 773529912, 1294757372, 1396182291,
   1695183700, 1986661051, 2177026350, 2456956037,
   2730485921, 2820302411, 3259730800, 3345764771,
   3516065817, 3600352804, 4094571909, 275423344,
   430227734, 506948616, 659060556, 883997877,
   958139571, 1322822218, 1537002063, 1747873779,
   1955562222, 2024104815, 2227730452, 2361852424,
   2428436474, 2756734187, 3204031479, 3329325298]

def sha256H0 : List Nat :=
  [1779033703, 3144134277, 1013904242, 2773480762,
   1359893119, 2600822924, 528734635, 1541459225]

def toBytesBE (n x : Nat) : List Nat :=
  (List.range n).map (fun i => (x >>> (8 * (n - 1 - i))) % 256)

def bytesToWord (bs : List Nat) : Nat := bs.foldl (fun acc b => acc * 256 + b) 0

def toBlocks (l : List Nat) : List (List Nat) :=
  if l = [] then [] else l.take 64 :: toBlocks (l.drop 64)
termination_by l.length
decreasing_by
  rename_i h
  have : 0 < l.length := List.length_pos.2 h
  simp [List.length_drop]
  omega

def lsig0 (x : Nat) : Nat := rotr32 7 x ^^^ rotr32 18 x ^^^ (x >>> 3)

def lsig1 (x : Nat) : Nat := rotr32 17 x ^^^ rotr32 19 x ^^^ (x >>> 10)

def nextW (acc : List Nat) : Nat :=
  let n := acc.length
  w32 (acc.getD (n - 16) 0 + lsig0 (acc.getD (n - 15) 0) + acc.getD (n - 7) 0 +
    lsig1 (acc.getD (n - 2) 0))

def blockWords (b : List Nat) : List Nat :=
  (List.range 16).map (fun i => bytesToWord ((b.drop (4 * i)).take 4))

def extendW (ws : List Nat) : List Nat :=
  (List.range 48).foldl (fun acc _ => acc ++ [nextW acc]) ws

def compressStep (hs : List Nat) (kw : Nat × Nat) : List Nat :=
  match hs with
  | [a, b, c, d, e, f, g, h] =>
    let s1 := rotr32 6 e ^^^ rotr32 11 e ^^^ rotr32 25 e
    let ch := (e &&& f) ^^^ ((e ^^^ 4294967295) &&& g)
    let temp1 := w32 (h + s1 + ch + kw.1 + kw.2)
    let s0 := rotr32 2 a ^^^ rotr32 13 a ^^^ rotr32 22 a
    let maj := (a &&& b) ^^^ (a &&& c) ^^^ (b &&& c)
    let temp2 := w32 (s0 + maj)
    [w32 (temp1 + temp2), a, b, c, w32 (d + temp1), e, f, g]
  | _ => hs

def processBlock (hs : List Nat) (b : List Nat) : List Nat :=
  let ws := extendW (blockWords b)
  let fin := (sha256K.zip ws).foldl compressStep hs
  (hs.zip fin).map (fun p => w32 (p.1 + p.2))

def sha256 (ms : List Nat) : List Nat :=
  let padded := ms ++ 128 ::
    (List.replicate ((64 - (ms.length + 9) % 64) % 64) 0 ++ toBytesBE 8 (ms.length * 8))
  ((toBlocks padded).foldl processBlock sha256H0).map (toBytesBE 4) |>.flatten

def base64urlAlphabet : List Char :=
  "ABCDEFGHIJKLMNOPQRSTUVWXYZabcdefghijklmnopqrstuvwxyz0123456789-_".data

def b64chr (n : Nat) : Char := base64urlAlphabet.getD n 'A'

def b64encodeList : List Nat → List Char
  | [] => []
  | [a] => [b64chr (a / 4), b64chr (a % 4 * 16)]
  | [a, b] => [b64chr (a / 4), b64chr (a % 4 * 16 + b / 16), b64chr (b % 16 * 4)]
  | a :: b :: c :: rest =>
    b64chr (a / 4) :: b64chr (a % 4 * 16 + b / 16) :: b64chr (b % 16 * 4 + c / 64) ::
      b64chr (c % 64) :: b64encodeList rest

def base64urlEncode (bs : List Nat) : String := String.mk (b64encodeList bs)

def strBytes (s : String) : List Nat := s.data.map Char.toNat


/-- Explicit randomness drawn for one login call: the CSRF state token and
PKCE code verifier strings, the encryption nonce and a cookie timestamp. -/
structure LoginRand where
  stateToken : String
  codeVerifier : String
  nonce : Nat
  timestamp : Nat

structure GeneratedLoginValues where
  state : String
  codeVerifier : String
  codeChallenge : String
  codeChallengeMethod : String
deriving DecidableEq, Repr

/-- Modelled from the spec (4.2): every login call generates a fresh state
token and code verifier (the randomness input), and the code challenge is
the URL-safe base64 encoding of the SHA-256 digest of the code verifier,
with method identifier S256. -/
def generateLoginValues (rand : LoginRand) : GeneratedLoginValues :=
  { state := rand.stateToken
    codeVerifier := rand.codeVerifier
    codeChallenge := base64urlEncode (sha256 (strBytes rand.codeVerifier))
    codeChallengeMethod := "S256" }

/-! ## Auth configuration and tenant resolution (spec 3, 4.3) -/

/-- AuthConfig as constructed in the test suite (section 3 of the spec). -/
structure AuthConfig where
  clientId : String
  clientSecret : String
  loginStateSecret : String
  loginUrl : String
  redirectUri : String
  rootDomain : String
  useCustomDomains : Bool
  useTenantSubdomains : Bool
  wristbandApplicationDomain : String
  scopes : List String

structure LoginConfig where
  customState : Option String
  scopes : Option (List String)
  tenantDomainName : Option String

structure LoginRequest where
  host : String
  returnUrl : Option String
  loginHint : Option String

/-- Modelled from the spec (4.3): the tenant domain name is "extracted as
the subdomain label of the request host relative to rootDomain"; resolution
fails if the host does not contain rootDomain as a proper suffix. -/
def extractTenantSubdomain (host rootDomain : String) : Option String :=
  let hs := host.data
  let suffix := '.' :: rootDomain.data
  if suffix.length < hs.length ∧ hs.drop (hs.length - suffix.length) = suffix then
    some (String.mk (hs.take (hs.length - suffix.length)))
  else none

/-- Modelled from the spec (4.3): subdomain extraction when
useTenantSubdomains is set, otherwise a configured identifier. -/
def resolveTenantDomainName (cfg : AuthConfig) (req : LoginRequest) (lc : LoginConfig) :
    Option String :=
  if cfg.useTenantSubdomains then extractTenantSubdomain req.host cfg.rootDomain
  else lc.tenantDomainName

/-- Modelled from the spec (4.3) and the test expectations: the
authentication origin for a tenant is tenant.applicationDomain over https. -/
def resolveAuthOrigin (cfg : AuthConfig) (tenant : String) : String :=
  "https://" ++ tenant ++ "." ++ cfg.wristbandApplicationDomain

/-- Modelled from the spec (4.4): scope defaults to a baseline set when not
overridden. -/
def defaultScopes : List String := ["openid", "offline_access", "email"]

/-- The cookie name embeds the plaintext state token between separators
(the test splits the name on a colon and reads part 1). -/
def loginStateCookieName (stateToken : String) (ts : Nat) : String :=
  "login:" ++ stateToken ++ ":" ++ toString ts

structure LoginResult where
  statusCode : Nat
  redirectOrigin : String
  redirectPath : String
  redirectQuery : List (String × String)
  cookies : List (String × List Nat)

/-- Modelled from the spec (4.4): resolve the tenant, generate state and
PKCE values, assemble and encrypt the LoginState into a single cookie whose
name embeds the state token, and emit a 302 to the authorize endpoint. -/
def login (cfg : AuthConfig) (req : LoginRequest) (lc : LoginConfig) (rand : LoginRand) :
    Except String LoginResult :=
  match resolveTenantDomainName cfg req lc with
  | none => .error "tenant resolution failed"
  | some tenant =>
    let gen := generateLoginValues rand
    let effScopes := lc.scopes.getD (if cfg.scopes = [] then defaultScopes else cfg.scopes)
    let ls : LoginState :=
      { state := gen.state
        codeVerifier := gen.codeVerifier
        redirectUri := cfg.redirectUri
        returnUrl := req.returnUrl
        customState := lc.customState
        tenantDomainName := tenant }
    .ok {
      statusCode := 302
      redirectOrigin := resolveAuthOrigin cfg tenant
      redirectPath := "/api/v1/oauth2/authorize"
      redirectQuery :=
        [("response_type", "code"), ("client_id", cfg.clientId),
         ("redirect_uri", cfg.redirectUri),
         ("scope", String.intercalate " " effScopes),
         ("state", gen.state), ("code_challenge", gen.codeChallenge),
         ("code_challenge_method", gen.codeChallengeMethod)] ++
        (match req.loginHint with | some h => [("login_hint", h)] | none => [])
      cookies := [(loginStateCookieName gen.state rand.timestamp,
                   encryptLoginState ls cfg.loginStateSecret rand.nonce)] }

/-! ## Wristband API client (src/wristband-api-client.ts) -/

/-- Modelled from the spec (section 6, "form-encoded body" / JSON
responses): the two media-type constants imported from utils/constants,
which is not among the provided sources. -/
def FORM_URLENCODED_MEDIA_TYPE : String := "application/x-www-form-urlencoded"

def JSON_MEDIA_TYPE : String := "application/json"

/-- The axios instance configuration built by the `WristbandApiClient`
constructor in src/wristband-api-client.ts. -/
structure WristbandApiClient where
  baseURL : String
  contentTypeHeader : String
  acceptHeader : String
  maxRedirects : Nat
  agentMaxSockets : Nat
  agentMaxFreeSockets : Nat
  agentTimeoutMs : Nat
  agentFreeSocketTimeoutMs : Nat
deriving DecidableEq, Repr

/-- Embedding of the `WristbandApiClient` constructor: a fixed base URL
derived from the configured application domain, keep-alive agent settings,
form-urlencoded content type, JSON accept header and no redirects. -/
def mkWristbandApiClient (wristbandApplicationDomain : String) : WristbandApiClient :=
  { baseURL := "https://" ++ wristbandApplicationDomain ++ "/api/v1"
    contentTypeHeader := FORM_URLENCODED_MEDIA_TYPE
    acceptHeader := JSON_MEDIA_TYPE
    maxRedirects := 0
    agentMaxSockets := 100
    agentMaxFreeSockets := 10
    agentTimeoutMs := 60000
    agentFreeSocketTimeoutMs := 30000 }

structure ApiRequest where
  method : String
  url : String
  contentType : String
deriving DecidableEq, Repr

/-- Modelled from the spec (section 6): a request issued through the api
client is sent to its base URL plus the endpoint path. -/
def apiRequestUrl (client : WristbandApiClient) (path : String) : String :=
  client.baseURL ++ path

/-- Modelled from the spec (section 6): the token endpoint is a form-encoded
POST to the oauth2/token path of the api client. -/
def tokenEndpointRequest (client : WristbandApiClient) : ApiRequest :=
  { method := "POST"
    url := apiRequestUrl client "/oauth2/token"
    contentType := client.contentTypeHeader }

/-! ## Token data, provider oracle and the callback orchestrator (spec 4.5) -/

structure TokenData where
  accessToken : String
  refreshToken : Option String
  idToken : Option String
  tokenType : String
  expiresIn : Nat
  scope : String
deriving DecidableEq, Repr

structure ProviderError where
  status : Nat
  body : String
deriving DecidableEq, Repr

/-- Outbound identity-provider calls, recorded as effects. -/
inductive ApiCall where
  | tokenExchange (code redirectUri codeVerifier : String)
  | userinfoFetch (accessToken : String)
  | tokenRefresh (refreshToken : String)
  | revokeToken (refreshToken : String)
deriving DecidableEq, Repr

/-- The identity provider as an oracle giving the responses of its
endpoints (an external collaborator per the spec). -/
structure Provider where
  exchangeResult : String → String → String → Except ProviderError TokenData
  userinfoResult : String → String
  refreshResult : String → Except ProviderError TokenData

structure CallbackData where
  tokenData : TokenData
  userinfo : String
  customState : Option String
  returnUrl : Option String
deriving DecidableEq, Repr

inductive CallbackOutcome where
  | completed (data : CallbackData)
  | redirect (url : String)
deriving DecidableEq, Repr

structure CallbackEffects where
  clearedCookies : List String
  apiCalls : List ApiCall
  outcome : Except ProviderError CallbackOutcome

structure CallbackQuery where
  state : String
  code : Option String
  error : Option String
  errorDescription : Option String

structure CallbackRequest where
  query : CallbackQuery
  cookies : List (String × List Nat)

/-- A login-state cookie matches the incoming state when its name embeds
that state token. -/
def cookieMatchesState (name stateToken : String) : Bool :=
  let pre := ("login:" ++ stateToken ++ ":").data
  decide (name.data.take pre.length = pre)

def findLoginStateCookie (req : CallbackRequest) : Option (String × List Nat) :=
  req.cookies.find? (fun kv => cookieMatchesState kv.1 req.query.state)

/-- Modelled from the spec (4.5): the callback orchestrator of
auth-service.ts.  A provider-reported error, a missing cookie, a failed
decryption, a state mismatch or a missing code all redirect (clearing the
cookie when one was found); otherwise the code is exchanged, userinfo is
fetched and CallbackData is returned, clearing the cookie in every case. -/
def callback (cfg : AuthConfig) (p : Provider) (req : CallbackRequest) : CallbackEffects :=
  let found := findLoginStateCookie req
  match req.query.error with
  | some _ =>
    { clearedCookies := (found.map (fun kv => kv.1)).toList
      apiCalls := []
      outcome := .ok (.redirect cfg.loginUrl) }
  | none =>
    match found with
    | none =>
      { clearedCookies := [], apiCalls := [], outcome := .ok (.redirect cfg.loginUrl) }
    | some (name, value) =>
      match decryptLoginState value cfg.loginStateSecret with
      | none =>
        { clearedCookies := [name], apiCalls := [], outcome := .ok (.redirect cfg.loginUrl) }
      | some ls =>
        if ls.state ≠ req.query.state then
          { clearedCookies := [name], apiCalls := [], outcome := .ok (.redirect cfg.loginUrl) }
        else
          match req.query.code with
          | none =>
            { clearedCookies := [name], apiCalls := [], outcome := .ok (.redirect cfg.loginUrl) }
          | some code =>
            match p.exchangeResult code ls.redirectUri ls.codeVerifier with
            | .error e =>
              { clearedCookies := [name]
                apiCalls := [.tokenExchange code ls.redirectUri ls.codeVerifier]
                outcome := .error e }
            | .ok td =>
              { clearedCookies := [name]
                apiCalls := [.tokenExchange code ls.redirectUri ls.codeVerifier,
                             .userinfoFetch td.accessToken]
                outcome := .ok (.completed
                  { tokenData := td
                    userinfo := p.userinfoResult td.accessToken
                    customState := ls.customState
                    returnUrl := ls.returnUrl }) }

/-! ## Token refresh guard (spec 4.7) -/

structure RefreshOutcome where
  apiCalls : List ApiCall
  result : Except ProviderError (Option TokenData)

/-- Modelled from the spec (4.7): if now is at or past expiresAt minus the
skew buffer, perform one refresh-token exchange and return the new
TokenData; otherwise return null without any network call.  Timestamps are
epoch milliseconds modelled as integers. -/
def refreshTokenIfExpired (p : Provider) (skewBufferMs now : Int)
    (refreshToken : String) (expiresAt : Int) : RefreshOutcome :=
  if now < expiresAt - skewBufferMs then
    { apiCalls := [], result := .ok none }
  else
    match p.refreshResult refreshToken with
    | .ok td => { apiCalls := [.tokenRefresh refreshToken], result := .ok (some td) }
    | .error e => { apiCalls := [.tokenRefresh refreshToken], result := .error e }

/-! ## Sample values used by the concrete witness instances -/

def sampleLoginState : LoginState :=
  { state := "stY"
    codeVerifier := "ver"
    redirectUri := "https://cb"
    returnUrl := none
    customState := none
    tenantDomainName := "t1" }

def sampleTokenData : TokenData :=
  { accessToken := "at"
    refreshToken := some "rt"
    idToken := some "idt"
    tokenType := "Bearer"
    expiresIn := 3600
    scope := "openid" }

def sampleProvider : Provider :=
  { exchangeResult := fun _ _ _ => .ok sampleTokenData
    userinfoResult := fun _ => "userinfo"
    refreshResult := fun _ => .ok sampleTokenData }

def cfgSample : AuthConfig :=
  { clientId := "c"
    clientSecret := "s"
    loginStateSecret := "sek"
    loginUrl := "https://login"
    redirectUri := "https://cb"
    rootDomain := "root"
    useCustomDomains := false
    useTenantSubdomains := false
    wristbandApplicationDomain := "app"
    scopes := [] }

/-- The AuthConfig of end-to-end scenario A, as built in
src/test/login/custom-config.test.ts. -/
def cfgScenarioA : AuthConfig :=
  { clientId := "clientId"
    clientSecret := "clientSecret"
    loginStateSecret := "7ffdbecc-ab7d-4134-9307-2dfcc52f7475"
    loginUrl := "https://{tenant_domain}.business.invotastic.com/api/auth/login"
    redirectUri := "https://{tenant_domain}.business.invotastic.com/api/auth/callback"
    rootDomain := "business.invotastic.com"
    useCustomDomains := true
    useTenantSubdomains := true
    wristbandApplicationDomain := "auth.invotastic.com"
    scopes := ["openid", "roles"] }

/-- The request of scenario A: host devs4you.business.invotastic.com. -/
def reqScenarioA : LoginRequest :=
  { host := "devs4you.business.invotastic.com"
    returnUrl := none
    loginHint := none }

def lcEmpty : LoginConfig :=
  { customState := none, scopes := none, tenantDomainName := none }

/-- Request used by the callback witnesses: the query state is stX and the
single login-state cookie (named for stX) decrypts to a LoginState whose
internal state token is stY — a cookie/name desynchronization. -/
def reqMismatch : CallbackRequest :=
  { query := { state := "stX", code := some "code1", error := none, errorDescription := none }
    cookies := [("login:stX:5", encryptLoginState sampleLoginState "sek" 3)] }

/-- Request used by the C7 witness: the provider reported an error. -/
def reqProviderError : CallbackRequest :=
  { query := { state := "st", code := none, error := some "access_denied"
               errorDescription := none }
    cookies := [] }

def randA : LoginRand :=
  { stateToken := "sA", codeVerifier := "vA", nonce := 0, timestamp := 0 }

def randB : LoginRand :=
  { stateToken := "sB", codeVerifier := "vB", nonce := 1, timestamp := 1 }

/-! ## Supporting lemmas for the codec and crypto model -/

theorem map_ofNat_toNat (cs : List Char) :
    (cs.map Char.toNat).map Char.ofNat = cs := by
  rw [List.map_map]
  have h : (Char.ofNat ∘ Char.toNat) = id := funext fun c => Char.ofNat_toNat c
  simp [h]

theorem parseStr_encStr (s : String) (rest : List Nat) :
    parseStr (encStr s ++ rest) = some (s, rest) := by
  unfold parseStr encStr
  simp only [List.cons_append]
  have hlen : s.data.length = (s.data.map Char.toNat).length :=
    (List.length_map s.data Char.toNat).symm
  rw [hlen, if_pos (by simp), List.take_left, List.drop_left, map_ofNat_toNat]

theorem parseStr_encStr_nil (s : String) : parseStr (encStr s) = some (s, []) := by
  have h := parseStr_encStr s []
  rwa [List.append_nil] at h

theorem parseOpt_encOpt (o : Option String) (rest : List Nat) :
    parseOpt (encOpt o ++ rest) = some (o, rest) := by
  cases o with
  | none => rfl
  | some s =>
    unfold encOpt parseOpt
    simp [parseStr_encStr]

theorem deserialize_serialize (ls : LoginState) :
    deserializeLoginState (serializeLoginState ls) = some ls := by
  unfold deserializeLoginState serializeLoginState
  simp [List.append_assoc, parseStr_encStr, parseOpt_encOpt, parseStr_encStr_nil]

theorem decrypt_encrypt (ls : LoginState) (secret : String) (nonce : Nat) :
    decryptLoginState (encryptLoginState ls secret nonce) secret = some ls := by
  unfold encryptLoginState decryptLoginState
  simp [List.take_left, List.drop_left, deserialize_serialize]

theorem encStr_inj (a b : String) (h : encStr a = encStr b) : a = b := by
  unfold encStr at h
  injection h with h1 h2
  have h3 := congrArg (List.map Char.ofNat) h2
  rw [map_ofNat_toNat, map_ofNat_toNat] at h3
  cases a; cases b; exact congrArg String.mk h3

theorem decrypt_encrypt_wrong_secret (ls : LoginState) (secret : String) (nonce : Nat)
    (s2 : String) (h : s2 ≠ secret) :
    decryptLoginState (encryptLoginState ls secret nonce) s2 = none := by
  unfold encryptLoginState decryptLoginState
  simp only [List.take_left, List.drop_left]
  rw [if_neg]
  rintro ⟨-, htag⟩
  exact h (encStr_inj s2 secret (List.append_cancel_right htag.symm))

theorem xor_pow_ne (x k : Nat) : x ^^^ 2 ^ k ≠ x := by
  intro h
  have h2 := congrArg (fun y => x ^^^ y) h
  simp only [← Nat.xor_assoc, Nat.xor_self, Nat.zero_xor] at h2
  have hp : (0:Nat) < 2 ^ k := Nat.pos_pow_of_pos k (by omega)
  omega

theorem decryptLoginState_cons_none (secret : String) (n : Nat) (rest : List Nat)
    (h : ¬((rest.take n).length = n ∧ rest.drop n = encStr secret ++ rest.take n)) :
    decryptLoginState (n :: rest) secret = none := by
  simp only [decryptLoginState]
  rw [if_neg h]

theorem getElem?_some_getD (l : List Nat) (j : Nat) (h : j < l.length) :
    l[j]? = some (l.getD j 0) := by
  rw [List.getD_eq_getElem?_getD, List.getElem?_eq_getElem h]
  rfl

theorem getElem?_set_value (l : List Nat) (j : Nat) (h : j < l.length) (a : Nat) :
    (l.set j a)[j]? = some a := by
  simp [List.getElem?_set_self, h]


/-- Core of the integrity argument: the ciphertext stores the body twice
(once raw, once inside the tag).  If a list `R2` agrees with a well-formed
`R` everywhere except at one position `j`, where it holds `v ^^^ 2 ^ k`
instead of `v`, then `R2` cannot itself satisfy the tag equation. -/
theorem point_change_breaks_tag (S R R2 : List Nat) (bl k : Nat)
    (hb : 0 < bl)
    (hRlen : R.length = bl + (S.length + bl))
    (hTag0 : R.drop bl = S ++ R.take bl)
    (j : Nat) (hj : j < R.length) (v : Nat)
    (hvj : R[j]? = some v)
    (hR2j : R2[j]? = some (v ^^^ 2 ^ k))
    (hR2p : ∀ p, p ≠ j → R2[p]? = R[p]?)
    (hTag : R2.drop bl = S ++ R2.take bl) : False := by
  rcases Nat.lt_or_ge j bl with hcase | hcase
  · -- change inside the raw body region
    have t1 := congrArg (fun l => l[S.length + j]?) hTag
    have t0 := congrArg (fun l => l[S.length + j]?) hTag0
    simp only [List.getElem?_drop] at t1 t0
    rw [List.getElem?_append_right (by omega), Nat.add_sub_cancel_left,
      List.getElem?_take, if_pos hcase] at t1 t0
    rw [hR2p _ (by omega), hR2j] at t1
    rw [hvj] at t0
    rw [t0] at t1
    exact xor_pow_ne v k (Option.some.inj t1).symm
  · rcases Nat.lt_or_ge j (bl + S.length) with hcase2 | hcase2
    · -- change inside the secret part of the tag
      have t1 := congrArg (fun l => l[j - bl]?) hTag
      have t0 := congrArg (fun l => l[j - bl]?) hTag0
      simp only [List.getElem?_drop] at t1 t0
      have hidx : bl + (j - bl) = j := by omega
      rw [hidx] at t1 t0
      rw [List.getElem?_append, if_pos (by omega : j - bl < S.length)] at t1 t0
      rw [hR2j] at t1
      rw [hvj] at t0
      rw [← t0] at t1
      exact xor_pow_ne v k (Option.some.inj t1)
    · -- change inside the body copy held by the tag
      have hq : j - (bl + S.length) < bl := by omega
      have t1 := congrArg (fun l => l[S.length + (j - (bl + S.length))]?) hTag
      have t0 := congrArg (fun l => l[S.length + (j - (bl + S.length))]?) hTag0
      simp only [List.getElem?_drop] at t1 t0
      have hidx : bl + (S.length + (j - (bl + S.length))) = j := by omega
      rw [hidx] at t1 t0
      rw [List.getElem?_append_right (by omega), Nat.add_sub_cancel_left,
        List.getElem?_take, if_pos hq] at t1 t0
      rw [hR2j, hR2p _ (by omega)] at t1
      rw [hvj] at t0
      rw [← t0] at t1
      exact xor_pow_ne v k (Option.some.inj t1)

/-- Integrity of the codec: flipping any single bit of any byte of an
encrypted LoginState makes decryption (under the correct secret) fail. -/
theorem decrypt_flipBit (ls : LoginState) (secret : String) (nonce : Nat)
    (i k : Nat) (hi : i < (encryptLoginState ls secret nonce).length) :
    decryptLoginState (flipBit (encryptLoginState ls secret nonce) i k) secret = none := by
  have hE : encryptLoginState ls secret nonce
      = (nonce :: serializeLoginState ls).length ::
        ((nonce :: serializeLoginState ls) ++
          (encStr secret ++ (nonce :: serializeLoginState ls))) := rfl
  rw [hE] at hi ⊢
  generalize hBdef : nonce :: serializeLoginState ls = B at hi ⊢
  have hb : 0 < B.length := by rw [← hBdef]; simp
  have hRlen : (B ++ (encStr secret ++ B)).length
      = B.length + ((encStr secret).length + B.length) := by simp
  have hTag0 : (B ++ (encStr secret ++ B)).drop B.length
      = encStr secret ++ (B ++ (encStr secret ++ B)).take B.length := by
    rw [List.take_left, List.drop_left]
  cases i with
  | zero =>
    have hflip : flipBit (B.length :: (B ++ (encStr secret ++ B))) 0 k
        = (B.length ^^^ 2 ^ k) :: (B ++ (encStr secret ++ B)) := rfl
    rw [hflip]
    apply decryptLoginState_cons_none
    rintro ⟨h1, h2⟩
    have e2 := congrArg List.length h2
    simp only [List.length_drop, List.length_append, List.length_take] at e2 h1
    have hx := xor_pow_ne B.length k
    omega
  | succ j =>
    have hj : j < (B ++ (encStr secret ++ B)).length := by
      simp only [List.length_cons] at hi
      omega
    have hflip : flipBit (B.length :: (B ++ (encStr secret ++ B))) (j + 1) k
        = B.length :: (B ++ (encStr secret ++ B)).set j
            ((B ++ (encStr secret ++ B)).getD j 0 ^^^ 2 ^ k) := rfl
    rw [hflip]
    apply decryptLoginState_cons_none
    rintro ⟨-, hTag⟩
    exact point_change_breaks_tag (encStr secret) (B ++ (encStr secret ++ B))
      ((B ++ (encStr secret ++ B)).set j
        ((B ++ (encStr secret ++ B)).getD j 0 ^^^ 2 ^ k))
      B.length k hb hRlen hTag0 j hj
      ((B ++ (encStr secret ++ B)).getD j 0)
      (getElem?_some_getD _ j hj)
      (getElem?_set_value _ j hj _)
      (fun p hp => List.getElem?_set_ne (fun he => hp he.symm))
      hTag

/-! ## Claim theorems -/

/-- C1: decrypting the encryption of any serializable LoginState with the
same secret returns the original LoginState; decrypting with a different
secret, or decrypting the ciphertext with any single bit flipped, always
returns an error (`none`) and never a valid-looking LoginState or partial
plaintext. -/
theorem claim_C1_crypto_roundtrip_fail_closed (ls : LoginState) (secret : String)
    (nonce : Nat) :
    decryptLoginState (encryptLoginState ls secret nonce) secret = some ls ∧
    (∀ s2, s2 ≠ secret →
      decryptLoginState (encryptLoginState ls secret nonce) s2 = none) ∧
    (∀ i k, i < (encryptLoginState ls secret nonce).length →
      decryptLoginState (flipBit (encryptLoginState ls secret nonce) i k) secret = none) :=
  ⟨decrypt_encrypt ls secret nonce,
   fun s2 h => decrypt_encrypt_wrong_secret ls secret nonce s2 h,
   fun i k hi => decrypt_flipBit ls secret nonce i k hi⟩

/-- C1 witness: the three parts of C1 evaluated at a concrete LoginState,
secret, wrong secret and bit position. -/
theorem claim_C1_witness :
    decryptLoginState (encryptLoginState sampleLoginState "sek" 7) "sek"
      = some sampleLoginState ∧
    decryptLoginState (encryptLoginState sampleLoginState "sek" 7) "other" = none ∧
    decryptLoginState (flipBit (encryptLoginState sampleLoginState "sek" 7) 0 3) "sek"
      = none :=
  ⟨(claim_C1_crypto_roundtrip_fail_closed sampleLoginState "sek" 7).1,
   (claim_C1_crypto_roundtrip_fail_closed sampleLoginState "sek" 7).2.1 "other" (by decide),
   (claim_C1_crypto_roundtrip_fail_closed sampleLoginState "sek" 7).2.2 0 3 (by decide)⟩

/-- C9: encryption embeds the per-call nonce in its output, so encrypting
the same plaintext twice with the same secret but fresh (distinct) nonces
produces different opaque tokens. -/
theorem claim_C9_fresh_nonce_distinct_ciphertexts (ls : LoginState) (secret : String)
    (n1 n2 : Nat) (h : n1 ≠ n2) :
    encryptLoginState ls secret n1 ≠ encryptLoginState ls secret n2 := by
  intro he
  unfold encryptLoginState at he
  simp only [List.cons_append] at he
  injection he with h1 h2
  injection h2 with h3 h4
  exact h h3

/-- C9 witness: two concrete encryptions of the same plaintext under the
same secret with different nonces differ. -/
theorem claim_C9_witness :
    encryptLoginState sampleLoginState "sek" 1 ≠ encryptLoginState sampleLoginState "sek" 2 :=
  claim_C9_fresh_nonce_distinct_ciphertexts sampleLoginState "sek" 1 2 (by decide)

/-- C10: every WristbandApiClient instance targets the fixed HTTPS base URL
for its configured application domain, with redirect following disabled,
form-urlencoded content type and JSON accept header; every request URL is
the base URL extended by the endpoint path. -/
theorem claim_C10_api_client_invariants (domain : String) :
    (mkWristbandApiClient domain).baseURL = "https://" ++ domain ++ "/api/v1" ∧
    (mkWristbandApiClient domain).maxRedirects = 0 ∧
    (mkWristbandApiClient domain).contentTypeHeader = "application/x-www-form-urlencoded" ∧
    (mkWristbandApiClient domain).acceptHeader = "application/json" ∧
    ∀ path, apiRequestUrl (mkWristbandApiClient domain) path
      = "https://" ++ (domain ++ ("/api/v1" ++ path)) := by
  refine ⟨rfl, rfl, rfl, rfl, fun path => ?_⟩
  simp [apiRequestUrl, mkWristbandApiClient, String.append_assoc]

/-- C5 counterexample: with the configuration and request host of the test
suite, the tenant resolved for the request is devs4you, yet the token
request URL built from the api client is not based on the tenant-qualified
authentication origin — it uses the fixed application domain. -/
theorem claim_C5_counterexample :
    resolveTenantDomainName cfgScenarioA reqScenarioA lcEmpty = some "devs4you" ∧
    (tokenEndpointRequest (mkWristbandApiClient cfgScenarioA.wristbandApplicationDomain)).url
      ≠ resolveAuthOrigin cfgScenarioA "devs4you" ++ "/api/v1/oauth2/token" := by
  constructor
  · decide
  · decide

/-- C5 (amended): every token-endpoint request is a form-encoded POST to
https followed by the configured wristbandApplicationDomain and
/api/v1/oauth2/token — the fixed application-level base URL of the api
client, not a per-request tenant-qualified origin. -/
theorem claim_C5_token_endpoint_fixed_domain (domain : String) :
    (tokenEndpointRequest (mkWristbandApiClient domain)).method = "POST" ∧
    (tokenEndpointRequest (mkWristbandApiClient domain)).contentType
      = FORM_URLENCODED_MEDIA_TYPE ∧
    (tokenEndpointRequest (mkWristbandApiClient domain)).url
      = "https://" ++ domain ++ "/api/v1" ++ "/oauth2/token" :=
  ⟨rfl, rfl, rfl⟩

/-- C6: end-to-end scenario A.  A login with scopes openid and roles,
tenant subdomain devs4you and root domain business.invotastic.com yields a
302 whose origin is https devs4you.auth.invotastic.com, path
/api/v1/oauth2/authorize and scope parameter "openid roles"; exactly one
cookie is set, its value decrypts to a LoginState whose state equals the
token embedded in the cookie name and whose tenantDomainName is devs4you. -/
theorem claim_C6_scenario_a (rand : LoginRand) :
    ∃ res ls,
      login cfgScenarioA reqScenarioA lcEmpty rand = .ok res ∧
      res.statusCode = 302 ∧
      res.redirectOrigin = "https://devs4you.auth.invotastic.com" ∧
      res.redirectPath = "/api/v1/oauth2/authorize" ∧
      res.redirectQuery.lookup "scope" = some "openid roles" ∧
      res.cookies.length = 1 ∧
      ∃ name value, res.cookies = [(name, value)] ∧
        decryptLoginState value cfgScenarioA.loginStateSecret = some ls ∧
        name = "login:" ++ ls.state ++ ":" ++ toString rand.timestamp ∧
        ls.tenantDomainName = "devs4you" := by
  have htenant : resolveTenantDomainName cfgScenarioA reqScenarioA lcEmpty
      = some "devs4you" := by decide
  unfold login
  rw [htenant]
  exact ⟨_, _, rfl, rfl, rfl, rfl, rfl, rfl, _, _, rfl, decrypt_encrypt _ _ _, rfl, rfl⟩

/-- C2: when the decrypted LoginState's state token does not equal the
state query parameter (the token embedded in the located cookie's name),
the callback fails the request with a redirect and performs no provider
call at all — in particular it never reaches the authorization-code token
exchange. -/
theorem claim_C2_callback_state_binding (cfg : AuthConfig) (p : Provider)
    (req : CallbackRequest) (name : String) (value : List Nat) (ls : LoginState)
    (hnoerr : req.query.error = none)
    (hfound : findLoginStateCookie req = some (name, value))
    (hdec : decryptLoginState value cfg.loginStateSecret = some ls)
    (hmism : ls.state ≠ req.query.state) :
    (callback cfg p req).outcome = .ok (.redirect cfg.loginUrl) ∧
    (callback cfg p req).apiCalls = [] := by
  constructor <;> simp [callback, hnoerr, hfound, hdec, hmism]

/-- C2 witness: the desynchronized request is redirected with no api call. -/
theorem claim_C2_witness :
    (callback cfgSample sampleProvider reqMismatch).outcome
      = .ok (.redirect cfgSample.loginUrl) ∧
    (callback cfgSample sampleProvider reqMismatch).apiCalls = [] :=
  claim_C2_callback_state_binding cfgSample sampleProvider reqMismatch
    "login:stX:5" (encryptLoginState sampleLoginState "sek" 3) sampleLoginState
    rfl (by decide) (decrypt_encrypt sampleLoginState "sek" 3) (by decide)

/-- C3: whenever the callback finds (reads) a login-state cookie matching
the incoming state, that cookie's name is instructed for deletion on the
response in every outcome — provider error parameter, decryption failure,
state mismatch, missing code, token-exchange failure or success. -/
theorem claim_C3_cookie_always_cleared (cfg : AuthConfig) (p : Provider)
    (req : CallbackRequest) (name : String) (value : List Nat)
    (hfound : findLoginStateCookie req = some (name, value)) :
    name ∈ (callback cfg p req).clearedCookies := by
  unfold callback
  rw [hfound]
  cases herr : req.query.error with
  | some e => simp
  | none =>
    simp only []
    cases hdec : decryptLoginState value cfg.loginStateSecret with
    | none => simp [hdec]
    | some ls =>
      by_cases hm : ls.state = req.query.state
      · cases hcode : req.query.code with
        | none => simp [hdec, hm, hcode]
        | some code =>
          cases hex : p.exchangeResult code ls.redirectUri ls.codeVerifier with
          | error e => simp [hdec, hm, hcode, hex]
          | ok td => simp [hdec, hm, hcode, hex]
      · simp [hdec, hm]

/-- C3 witness: the witness request's cookie is cleared. -/
theorem claim_C3_witness :
    "login:stX:5" ∈ (callback cfgSample sampleProvider reqMismatch).clearedCookies :=
  claim_C3_cookie_always_cleared cfgSample sampleProvider reqMismatch
    "login:stX:5" (encryptLoginState sampleLoginState "sek" 3) (by decide)

/-- C7: on the expected edge cases — a provider-reported error query
parameter, a missing login-state cookie for the given state, or a cookie
value that fails decryption — the callback returns a redirect response and
never a raw error. -/
theorem claim_C7_callback_edge_cases_redirect (cfg : AuthConfig) (p : Provider)
    (req : CallbackRequest)
    (h : req.query.error ≠ none ∨ findLoginStateCookie req = none ∨
      ∃ nv, findLoginStateCookie req = some nv ∧
        decryptLoginState nv.2 cfg.loginStateSecret = none) :
    ∃ u, (callback cfg p req).outcome = .ok (.redirect u) := by
  cases herr : req.query.error with
  | some e =>
    exact ⟨cfg.loginUrl, by simp [callback, herr]⟩
  | none =>
    rcases h with h1 | h2 | ⟨⟨name, value⟩, hf, hd⟩
    · exact absurd herr h1
    · exact ⟨cfg.loginUrl, by simp [callback, herr, h2]⟩
    · exact ⟨cfg.loginUrl, by simp [callback, herr, hf, hd]⟩

/-- C7 witness: a provider-error callback results in a redirect. -/
theorem claim_C7_witness :
    ∃ u, (callback cfgSample sampleProvider reqProviderError).outcome
      = .ok (.redirect u) :=
  claim_C7_callback_edge_cases_redirect cfgSample sampleProvider reqProviderError
    (Or.inl (by decide))

/-- C4: if now is strictly before expiresAt minus the skew buffer, the
refresh guard returns null without any network call; otherwise it performs
exactly one refresh-token exchange and, when the provider succeeds,
returns the new TokenData. -/
theorem claim_C4_refresh_guard (p : Provider) (skew now : Int) (rt : String)
    (expiresAt : Int) :
    (now < expiresAt - skew →
      refreshTokenIfExpired p skew now rt expiresAt
        = { apiCalls := [], result := .ok none }) ∧
    (expiresAt - skew ≤ now →
      (refreshTokenIfExpired p skew now rt expiresAt).apiCalls = [.tokenRefresh rt] ∧
      ∀ td, p.refreshResult rt = .ok td →
        (refreshTokenIfExpired p skew now rt expiresAt).result = .ok (some td)) := by
  constructor
  · intro h
    unfold refreshTokenIfExpired
    rw [if_pos h]
  · intro h
    unfold refreshTokenIfExpired
    rw [if_neg (by omega)]
    cases hr : p.refreshResult rt with
    | ok td =>
      refine ⟨rfl, fun td2 htd => ?_⟩
      injection htd with he
      subst he
      rfl
    | error e =>
      refine ⟨rfl, fun td2 htd => ?_⟩
      exact absurd htd (by simp)

/-- C4 witness: with a provider returning sampleTokenData, a fresh token
(now 5, expiry 10, no skew) is a silent no-op and an expired one (now 20)
performs exactly one refresh call returning the new token data. -/
theorem claim_C4_witness :
    refreshTokenIfExpired sampleProvider 0 5 "rt" 10
      = { apiCalls := [], result := .ok none } ∧
    (refreshTokenIfExpired sampleProvider 0 20 "rt" 10).apiCalls
      = [.tokenRefresh "rt"] ∧
    (refreshTokenIfExpired sampleProvider 0 20 "rt" 10).result
      = .ok (some sampleTokenData) :=
  ⟨(claim_C4_refresh_guard sampleProvider 0 5 "rt" 10).1 (by decide),
   ((claim_C4_refresh_guard sampleProvider 0 20 "rt" 10).2 (by decide)).1,
   ((claim_C4_refresh_guard sampleProvider 0 20 "rt" 10).2 (by decide)).2
     sampleTokenData rfl⟩

/-- C8: every generated PKCE pair satisfies codeChallenge equal to the
URL-safe base64 encoding of the SHA-256 digest of the code verifier with
method S256, and the generator passes the per-call randomness through, so
two calls with distinct random draws produce distinct state tokens and
distinct code verifiers (no caching or reuse). -/
theorem claim_C8_pkce_pair (r1 r2 : LoginRand) :
    (generateLoginValues r1).codeChallenge
      = base64urlEncode (sha256 (strBytes (generateLoginValues r1).codeVerifier)) ∧
    (generateLoginValues r1).codeChallengeMethod = "S256" ∧
    (r1.stateToken ≠ r2.stateToken →
      (generateLoginValues r1).state ≠ (generateLoginValues r2).state) ∧
    (r1.codeVerifier ≠ r2.codeVerifier →
      (generateLoginValues r1).codeVerifier ≠ (generateLoginValues r2).codeVerifier) :=
  ⟨rfl, rfl, fun h => h, fun h => h⟩

/-- C8 witness: two concrete distinct draws give distinct tokens, and the
challenge equation holds at a concrete pair. -/
theorem claim_C8_witness :
    (generateLoginValues randA).codeChallenge
      = base64urlEncode (sha256 (strBytes (generateLoginValues randA).codeVerifier)) ∧
    (generateLoginValues randA).state ≠ (generateLoginValues randB).state ∧
    (generateLoginValues randA).codeVerifier ≠ (generateLoginValues randB).codeVerifier :=
  ⟨(claim_C8_pkce_pair randA randB).1,
   (claim_C8_pkce_pair randA randB).2.2.1 (by decide),
   (claim_C8_pkce_pair randA randB).2.2.2 (by decide)⟩
